import Mathlib

/-!
Shallow embedding of the OpenCS pathgrid editor
(apps/opencs/view/render/pathgrid.cpp) and verification of its
specification. The C++ class `CSVRender::Pathgrid` keeps a local selection
of node indices, two geometry dirty flags, and two drawable slots; it
builds document-edit commands for the caller's batch. Here the mutable
object is a `PathgridState` record, the resolved document pathgrid is
passed explicitly (`Option CSMPathgrid`, mirroring `getPathgridSource`),
and command emission returns a `List Command`.
-/

namespace CSVRender

/-- One pathgrid point, integer coordinates (CSMWorld::Pathgrid::Point). -/
structure Point where
  mX : Int
  mY : Int
  mZ : Int
  deriving DecidableEq, Repr

/-- One directed pathgrid edge, endpoint node row indices (mV0, mV1 are
ints in the record type). -/
structure Edge where
  mV0 : Int
  mV1 : Int
  deriving DecidableEq, Repr

/-- The persisted pathgrid record as resolved from the document: ordered
points then ordered edges; row position is the index. -/
structure CSMPathgrid where
  mPoints : List Point
  mEdges : List Edge
  deriving DecidableEq, Repr

/-- Column identifiers used by the emitted commands (CSMWorld::Columns). -/
inductive ColumnId where
  | pathgridPoints
  | pathgridEdges
  | pathgridPosX
  | pathgridPosY
  | pathgridPosZ
  | pathgridEdge0
  | pathgridEdge1
  deriving DecidableEq, Repr

/-- A primitive document-edit command appended to the caller's batch:
AddNestedCommand, ModifyCommand or DeleteNestedCommand, with the int row
index and the column it addresses. -/
inductive Command where
  | addNested (row : Int) (parentColumn : ColumnId)
  | modify (row : Int) (column : ColumnId) (value : Int)
  | deleteNested (row : Int) (parentColumn : ColumnId)
  deriving DecidableEq, Repr

/-- Row index addressed by a command. -/
def commandRow : Command → Int
  | .addNested row _ => row
  | .modify row _ _ => row
  | .deleteNested row _ => row

/-- The mutable per-instance state of a CSVRender::Pathgrid object: the
selection, the connection-indicator flag and node, the two geometry dirty
flags, the interior flag, the selection transform offset, and the two
drawable slots. A drawable slot holds the data it was built from (the
resolved pathgrid, and for the highlight also the node list handed to
SceneUtil::createPathgridSelectedWireframe), or none when empty. -/
structure PathgridState where
  mSelected : List Nat
  mConnectionIndicator : Bool
  mConnectionNode : Nat
  mChangeGeometry : Bool
  mRemoveGeometry : Bool
  mInterior : Bool
  mSelectedNodePosition : Int × Int × Int
  mPathgridGeometry : Option CSMPathgrid
  mSelectedGeometry : Option (CSMPathgrid × List Nat)
  deriving DecidableEq, Repr

namespace Pathgrid

/-- Pathgrid::removeSelectedGeometry: empty the highlight drawable slot. -/
def removeSelectedGeometry (s : PathgridState) : PathgridState :=
  { s with mSelectedGeometry := none }

/-- Pathgrid::removePathgridGeometry: empty the persisted-graph drawable
slot. -/
def removePathgridGeometry (s : PathgridState) : PathgridState :=
  { s with mPathgridGeometry := none }

/-- Pathgrid::createSelectedGeometry(const CSMWorld::Pathgrid&): rebuild
the highlight drawable; with an active connection indicator the node list
is the selection with the indicator node moved (or appended) to the end. -/
def createSelectedGeometrySrc (source : CSMPathgrid) (s : PathgridState) : PathgridState :=
  let s1 := removeSelectedGeometry s
  if s1.mConnectionIndicator then
    let tempList := s1.mSelected.erase s1.mConnectionNode ++ [s1.mConnectionNode]
    { s1 with mSelectedGeometry := some (source, tempList) }
  else
    { s1 with mSelectedGeometry := some (source, s1.mSelected) }

/-- Pathgrid::createSelectedGeometry(): re-resolve the source first; on
failure tear the highlight down instead. -/
def createSelectedGeometry (source : Option CSMPathgrid) (s : PathgridState) : PathgridState :=
  match source with
  | some src => createSelectedGeometrySrc src s
  | none => removeSelectedGeometry s

/-- Pathgrid::selectAll: clear, then select every point row index (the
loop counter is an unsigned short compared against the size cast to
unsigned short, hence the mod 65536); absent graph leaves it cleared. -/
def selectAll (source : Option CSMPathgrid) (s : PathgridState) : PathgridState :=
  let s1 := { s with mSelected := ([] : List Nat) }
  match source with
  | some src =>
      let s2 := { s1 with mSelected := List.range (src.mPoints.length % 65536) }
      createSelectedGeometrySrc src s2
  | none => removeSelectedGeometry s1

/-- Pathgrid::toggleSelected: stable erase if present, append if absent,
then rebuild the highlight. -/
def toggleSelected (source : Option CSMPathgrid) (node : Nat) (s : PathgridState) :
    PathgridState :=
  let s1 :=
    if node ∈ s.mSelected then
      { s with mSelected := s.mSelected.erase node }
    else
      { s with mSelected := s.mSelected ++ [node] }
  createSelectedGeometry source s1

/-- Pathgrid::invertSelected: new selection is every valid point index not
previously selected, in ascending order; absent graph leaves it cleared. -/
def invertSelected (source : Option CSMPathgrid) (s : PathgridState) : PathgridState :=
  let temp := s.mSelected
  let s1 := { s with mSelected := ([] : List Nat) }
  match source with
  | some src =>
      let s2 := { s1 with
        mSelected :=
          (List.range (src.mPoints.length % 65536)).filter (fun i => decide (i ∉ temp)) }
      createSelectedGeometrySrc src s2
  | none => removeSelectedGeometry s1

/-- Pathgrid::clearSelected: empty the selection and tear the highlight
drawable down. -/
def clearSelected (s : PathgridState) : PathgridState :=
  removeSelectedGeometry { s with mSelected := ([] : List Nat) }

/-- Pathgrid::moveSelected: accumulate an offset on the selection
transform only. -/
def moveSelected (offset : Int × Int × Int) (s : PathgridState) : PathgridState :=
  { s with
    mSelectedNodePosition :=
      (s.mSelectedNodePosition.1 + offset.1, s.mSelectedNodePosition.2.1 + offset.2.1,
        s.mSelectedNodePosition.2.2 + offset.2.2) }

/-- Pathgrid::setupConnectionIndicator: record the pending edge-source
node and rebuild the highlight. -/
def setupConnectionIndicator (source : Option CSMPathgrid) (node : Nat) (s : PathgridState) :
    PathgridState :=
  let s1 := { s with mConnectionIndicator := true, mConnectionNode := node }
  createSelectedGeometry source s1

/-- Pathgrid::resetMove: zero the selection transform; if a connection
indicator was active, drop it and rebuild the highlight. -/
def resetMove (source : Option CSMPathgrid) (s : PathgridState) : PathgridState :=
  let s1 := { s with mSelectedNodePosition := ((0 : Int), (0 : Int), (0 : Int)) }
  if s1.mConnectionIndicator then
    createSelectedGeometry source { s1 with mConnectionIndicator := false }
  else
    s1

/-- Pathgrid::recreateGeometry: request a rebuild at the next tick. -/
def recreateGeometry (s : PathgridState) : PathgridState :=
  { s with mChangeGeometry := true }

/-- Pathgrid::removeGeometry: request a teardown at the next tick. -/
def removeGeometry (s : PathgridState) : PathgridState :=
  { s with mRemoveGeometry := true }

/-- Pathgrid::createGeometry: re-resolve the source; if present, replace
the persisted-graph drawable and rebuild the highlight; if absent, request
a teardown instead. -/
def createGeometry (source : Option CSMPathgrid) (s : PathgridState) : PathgridState :=
  match source with
  | some src =>
      let s1 := removePathgridGeometry s
      let s2 := { s1 with mPathgridGeometry := some src }
      createSelectedGeometrySrc src s2
  | none => removeGeometry s

/-- Pathgrid::update, the per-tick callback: teardown takes precedence
over rebuild, and both dirty flags are cleared at the end of the tick. -/
def update (source : Option CSMPathgrid) (s : PathgridState) : PathgridState :=
  let s1 :=
    if s.mRemoveGeometry then
      removeSelectedGeometry (removePathgridGeometry s)
    else if s.mChangeGeometry then
      createGeometry source s
    else s
  { s1 with mChangeGeometry := false, mRemoveGeometry := false }

/-- Pathgrid::edgeExists inner loop: first row whose (mV0, mV1) equals
the pair, counted from i, or -1. -/
def edgeExistsAux (edges : List Edge) (node1 node2 : Nat) (i : Nat) : Int :=
  match edges with
  | [] => -1
  | e :: rest =>
      if e.mV0 = (node1 : Int) ∧ e.mV1 = (node2 : Int) then (i : Int)
      else edgeExistsAux rest node1 node2 (i + 1)

/-- Pathgrid::edgeExists: linear scan over the edge rows for the exact
directed pair, returning the first matching row index or -1. -/
def edgeExists (source : CSMPathgrid) (node1 node2 : Nat) : Int :=
  edgeExistsAux source.mEdges node1 node2 0

/-- Pathgrid::addEdge: for each of the two directions independently, if no
row with that exact (from, to) pair exists, append an edge row and set its
two endpoint columns; the row index for the second direction accounts for
the first direction's just-appended row. -/
def addEdge (source : CSMPathgrid) (node1 node2 : Nat) : List Command :=
  let row : Int := (source.mEdges.length : Int)
  let first :=
    if edgeExists source node1 node2 = -1 then
      [Command.addNested row ColumnId.pathgridEdges,
        Command.modify row ColumnId.pathgridEdge0 (node1 : Int),
        Command.modify row ColumnId.pathgridEdge1 (node2 : Int)]
    else []
  let row2 : Int := if edgeExists source node1 node2 = -1 then row + 1 else row
  let second :=
    if edgeExists source node2 node1 = -1 then
      [Command.addNested row2 ColumnId.pathgridEdges,
        Command.modify row2 ColumnId.pathgridEdge0 (node2 : Int),
        Command.modify row2 ColumnId.pathgridEdge1 (node1 : Int)]
    else []
  first ++ second

/-- Pathgrid::applyEdge: resolve the source, then addEdge; no graph, no
commands. -/
def applyEdge (source : Option CSMPathgrid) (node1 node2 : Nat) : List Command :=
  match source with
  | some src => addEdge src node1 node2
  | none => []

/-- Pathgrid::applyEdges: addEdge from the fixed node to every selected
node, all against the same resolved source. -/
def applyEdges (source : Option CSMPathgrid) (node : Nat) (s : PathgridState) : List Command :=
  match source with
  | some src => s.mSelected.flatMap (fun n => addEdge src node n)
  | none => []

/-- Pathgrid::applyRemoveNodes: if the graph resolves, sort the selection
descending in place (std::sort with std::greater) and emit one delete-row
command per index in that order; afterwards clearSelected unconditionally. -/
def applyRemoveNodes (source : Option CSMPathgrid) (s : PathgridState) :
    List Command × PathgridState :=
  match source with
  | some _ =>
      let sorted := List.insertionSort (fun a b => a ≥ b) s.mSelected
      let cmds := sorted.map fun row => Command.deleteNested (Int.ofNat row) ColumnId.pathgridPoints
      (cmds, clearSelected { s with mSelected := sorted })
  | none => ([], clearSelected s)

/-- Index pairs (i, j) at which Pathgrid::applyRemoveEdges reads the
selection: the outer loop runs i from 0 through an inclusive bound equal
to the selection size, the inner loop runs j from i + 1 while j is below
the size. -/
def removeEdgesPairs (n : Nat) : List (Nat × Nat) :=
  (List.range (n + 1)).flatMap fun i =>
    (List.range' (i + 1) (n - (i + 1))).map fun j => (i, j)

/-- Insertion into a std::set ordered by std::greater: descending,
duplicates collapsed. -/
def insertGreaterSet (x : Int) : List Int → List Int
  | [] => [x]
  | y :: ys =>
      if x > y then x :: y :: ys
      else if x = y then y :: ys
      else y :: insertGreaterSet x ys

/-- Pathgrid::applyRemoveEdges: for every scanned index pair, look both
directions up and collect matching edge rows into a descending duplicate-
free set, then emit one delete-row command per collected row in that
order. The selection is not cleared. -/
def applyRemoveEdges (source : Option CSMPathgrid) (s : PathgridState) : List Command :=
  match source with
  | some src =>
      let rows :=
        (removeEdgesPairs s.mSelected.length).foldl
          (fun acc p =>
            let a := s.mSelected.getD p.1 0
            let b := s.mSelected.getD p.2 0
            let r1 := edgeExists src a b
            let acc1 := if r1 ≠ -1 then insertGreaterSet r1 acc else acc
            let r2 := edgeExists src b a
            if r2 ≠ -1 then insertGreaterSet r2 acc1 else acc1)
          ([] : List Int)
      rows.map fun r => Command.deleteNested r ColumnId.pathgridEdges
  | none => []

/-- Modelled from the spec: the fixed real-world size of one exterior cell
(the constant ESM::Land::REAL_SIZE, whose defining header is not part of
this excerpt); the spec gives its value as 8192. -/
def REAL_SIZE : Int := 8192

/-- Pathgrid::clampToCell: interiors are unbounded; exteriors clamp the
coordinate into [0, CellExtent]. -/
def clampToCell (mInterior : Bool) (v : Int) : Int :=
  let CellExtent : Int := REAL_SIZE
  if mInterior then v
  else if v > CellExtent then CellExtent
  else if v < 0 then 0
  else v

/-- One-point pathgrid used in concrete evaluations. -/
def sampleGrid : CSMPathgrid := ⟨[⟨0, 0, 0⟩], []⟩

/-- Two-point pathgrid used in concrete evaluations, the point layout of
the worked example in the specification. -/
def sampleGrid2 : CSMPathgrid := ⟨[⟨0, 0, 0⟩, ⟨10, 10, 10⟩], []⟩

/-- Base instance state for concrete evaluations: empty selection, no
indicator, both dirty flags clear, both drawable slots filled from
sampleGrid. -/
def sampleState : PathgridState :=
  ⟨[], false, 0, false, false, false, (0, 0, 0), some sampleGrid, some (sampleGrid, [])⟩

theorem createSelectedGeometrySrc_mSelected (source : CSMPathgrid) (s : PathgridState) :
    (createSelectedGeometrySrc source s).mSelected = s.mSelected := by
  cases h : s.mConnectionIndicator <;>
    simp [createSelectedGeometrySrc, removeSelectedGeometry, h]

theorem createSelectedGeometrySrc_mChangeGeometry (source : CSMPathgrid) (s : PathgridState) :
    (createSelectedGeometrySrc source s).mChangeGeometry = s.mChangeGeometry := by
  cases h : s.mConnectionIndicator <;>
    simp [createSelectedGeometrySrc, removeSelectedGeometry, h]

theorem createSelectedGeometrySrc_mRemoveGeometry (source : CSMPathgrid) (s : PathgridState) :
    (createSelectedGeometrySrc source s).mRemoveGeometry = s.mRemoveGeometry := by
  cases h : s.mConnectionIndicator <;>
    simp [createSelectedGeometrySrc, removeSelectedGeometry, h]

theorem createSelectedGeometrySrc_ne_none (source : CSMPathgrid) (s : PathgridState) :
    (createSelectedGeometrySrc source s).mSelectedGeometry ≠ none := by
  cases h : s.mConnectionIndicator <;>
    simp [createSelectedGeometrySrc, removeSelectedGeometry, h]

theorem createSelectedGeometry_mSelected (source : Option CSMPathgrid) (s : PathgridState) :
    (createSelectedGeometry source s).mSelected = s.mSelected := by
  cases source <;>
    simp [createSelectedGeometry, removeSelectedGeometry, createSelectedGeometrySrc_mSelected]

theorem createSelectedGeometry_mChangeGeometry (source : Option CSMPathgrid)
    (s : PathgridState) :
    (createSelectedGeometry source s).mChangeGeometry = s.mChangeGeometry := by
  cases source <;>
    simp [createSelectedGeometry, removeSelectedGeometry,
      createSelectedGeometrySrc_mChangeGeometry]

theorem createSelectedGeometry_mRemoveGeometry (source : Option CSMPathgrid)
    (s : PathgridState) :
    (createSelectedGeometry source s).mRemoveGeometry = s.mRemoveGeometry := by
  cases source <;>
    simp [createSelectedGeometry, removeSelectedGeometry,
      createSelectedGeometrySrc_mRemoveGeometry]

theorem toggleSelected_mSelected (source : Option CSMPathgrid) (node : Nat)
    (s : PathgridState) :
    (toggleSelected source node s).mSelected =
      if node ∈ s.mSelected then s.mSelected.erase node else s.mSelected ++ [node] := by
  by_cases h : node ∈ s.mSelected <;>
    simp [toggleSelected, createSelectedGeometry_mSelected, h]

theorem invertSelected_mSelected (source : CSMPathgrid) (s : PathgridState) :
    (invertSelected (some source) s).mSelected =
      (List.range (source.mPoints.length % 65536)).filter
        (fun i => decide (i ∉ s.mSelected)) := by
  simp [invertSelected, createSelectedGeometrySrc_mSelected]

/-- C8: clampToCell returns v unchanged when the instance is interior;
when exterior it clamps v into [0, cellExtent] with cellExtent = 8192 —
in particular clampToCell of -50 is -50 for interior and 0 for exterior,
and clampToCell of 9000 is 8192 for exterior. -/
theorem clampToCell_spec :
    (∀ v : Int, clampToCell true v = v) ∧
    (∀ v : Int, clampToCell false v = max 0 (min REAL_SIZE v)) ∧
    REAL_SIZE = 8192 ∧
    clampToCell true (-50) = -50 ∧
    clampToCell false (-50) = 0 ∧
    clampToCell false 9000 = 8192 := by
  refine ⟨fun v => rfl, fun v => ?_, rfl, by decide, by decide, by decide⟩
  have hdef : clampToCell false v = if 8192 < v then 8192 else if v < 0 then 0 else v := rfl
  rw [hdef]
  simp only [REAL_SIZE, Int.max_def, Int.min_def]
  split_ifs <;> omega

/-- C5: addEdge emits, per missing direction, exactly the three commands
append-row, set-from-column, set-to-column in that order, with the second
direction's append row index one greater than the first direction's when
the first append happened; the total command count is 6 when both
directions are missing, 3 when exactly one already exists, and 0 when
both already exist. -/
theorem addEdge_command_shape (source : CSMPathgrid) (node1 node2 : Nat) :
    (edgeExists source node1 node2 ≠ -1 → edgeExists source node2 node1 ≠ -1 →
      addEdge source node1 node2 = []) ∧
    (edgeExists source node1 node2 = -1 → edgeExists source node2 node1 ≠ -1 →
      addEdge source node1 node2 =
        [Command.addNested (source.mEdges.length : Int) ColumnId.pathgridEdges,
          Command.modify (source.mEdges.length : Int) ColumnId.pathgridEdge0 (node1 : Int),
          Command.modify (source.mEdges.length : Int) ColumnId.pathgridEdge1 (node2 : Int)]) ∧
    (edgeExists source node1 node2 ≠ -1 → edgeExists source node2 node1 = -1 →
      addEdge source node1 node2 =
        [Command.addNested (source.mEdges.length : Int) ColumnId.pathgridEdges,
          Command.modify (source.mEdges.length : Int) ColumnId.pathgridEdge0 (node2 : Int),
          Command.modify (source.mEdges.length : Int) ColumnId.pathgridEdge1 (node1 : Int)]) ∧
    (edgeExists source node1 node2 = -1 → edgeExists source node2 node1 = -1 →
      addEdge source node1 node2 =
        [Command.addNested (source.mEdges.length : Int) ColumnId.pathgridEdges,
          Command.modify (source.mEdges.length : Int) ColumnId.pathgridEdge0 (node1 : Int),
          Command.modify (source.mEdges.length : Int) ColumnId.pathgridEdge1 (node2 : Int),
          Command.addNested ((source.mEdges.length : Int) + 1) ColumnId.pathgridEdges,
          Command.modify ((source.mEdges.length : Int) + 1) ColumnId.pathgridEdge0 (node2 : Int),
          Command.modify ((source.mEdges.length : Int) + 1) ColumnId.pathgridEdge1 (node1 : Int)]) := by
  refine ⟨?_, ?_, ?_, ?_⟩ <;> intro h1 h2 <;> simp [addEdge, h1, h2]

/-- C5 witness: on the two-point, zero-edge graph of the specification
example, adding edge (0, 1) emits the six commands append-row 0,
set-from 0, set-to 0, append-row 1, set-from 1, set-to 1. -/
theorem addEdge_command_shape_witness :
    edgeExists sampleGrid2 0 1 = -1 ∧ edgeExists sampleGrid2 1 0 = -1 ∧
    addEdge sampleGrid2 0 1 =
      [Command.addNested 0 ColumnId.pathgridEdges,
        Command.modify 0 ColumnId.pathgridEdge0 0,
        Command.modify 0 ColumnId.pathgridEdge1 1,
        Command.addNested 1 ColumnId.pathgridEdges,
        Command.modify 1 ColumnId.pathgridEdge0 1,
        Command.modify 1 ColumnId.pathgridEdge1 0] := by
  refine ⟨by decide, by decide, ?_⟩
  have h := (addEdge_command_shape sampleGrid2 0 1).2.2.2 (by decide) (by decide)
  simpa [sampleGrid2] using h

/-- C10: when no directed (n, n) edge exists, addEdge with both endpoints
equal to n emits six commands that create two identical directed (n, n)
edge rows — the second existence check scans the same pre-batch edge list
and cannot see the first direction's pending append. -/
theorem addEdge_self_duplicates (source : CSMPathgrid) (n : Nat)
    (h : edgeExists source n n = -1) :
    addEdge source n n =
      [Command.addNested (source.mEdges.length : Int) ColumnId.pathgridEdges,
        Command.modify (source.mEdges.length : Int) ColumnId.pathgridEdge0 (n : Int),
        Command.modify (source.mEdges.length : Int) ColumnId.pathgridEdge1 (n : Int),
        Command.addNested ((source.mEdges.length : Int) + 1) ColumnId.pathgridEdges,
        Command.modify ((source.mEdges.length : Int) + 1) ColumnId.pathgridEdge0 (n : Int),
        Command.modify ((source.mEdges.length : Int) + 1) ColumnId.pathgridEdge1 (n : Int)] := by
  simp [addEdge, h]

/-- C10 witness: on the one-point, zero-edge graph, adding edge (0, 0)
emits two identical (0, 0) edge rows. -/
theorem addEdge_self_duplicates_witness :
    edgeExists sampleGrid 0 0 = -1 ∧
    addEdge sampleGrid 0 0 =
      [Command.addNested 0 ColumnId.pathgridEdges,
        Command.modify 0 ColumnId.pathgridEdge0 0,
        Command.modify 0 ColumnId.pathgridEdge1 0,
        Command.addNested 1 ColumnId.pathgridEdges,
        Command.modify 1 ColumnId.pathgridEdge0 0,
        Command.modify 1 ColumnId.pathgridEdge1 0] := by
  refine ⟨by decide, ?_⟩
  have h := addEdge_self_duplicates sampleGrid 0 (by decide)
  simpa [sampleGrid] using h

/-- C9: every index pair at which the remove-edges pair scan reads the
selection is strictly below the selection size: although the outer loop
bound is inclusive of the size, the inner loop lower bound j = i + 1 makes
the body unreachable when the outer index equals the size. -/
theorem removeEdgesPairs_in_bounds (n i j : Nat)
    (h : (i, j) ∈ removeEdgesPairs n) : i < n ∧ j < n := by
  simp only [removeEdgesPairs, List.mem_flatMap, List.mem_map, List.mem_range,
    List.mem_range'] at h
  obtain ⟨a, ha, b, ⟨k, hk, hbk⟩, hab⟩ := h
  obtain ⟨rfl, rfl⟩ := Prod.mk.injEq .. ▸ hab
  omega

/-- C9 witness: with a selection of size 2, the pair (0, 1) is scanned and
both components are strictly below 2. -/
theorem removeEdgesPairs_in_bounds_witness :
    ((0, 1) ∈ removeEdgesPairs 2) ∧ (0 < 2 ∧ 1 < 2) :=
  ⟨by decide, removeEdgesPairs_in_bounds 2 0 1 (by decide)⟩

/-- C1 counterexample: in a state with a rebuild requested, no teardown
requested, and both drawable slots filled, a tick at which the graph does
not resolve neither removes the two drawables nor leaves a teardown
request pending. -/
theorem update_absent_graph_counterexample :
    ¬ ((((update none { sampleState with mChangeGeometry := true }).mPathgridGeometry = none ∧
          (update none { sampleState with mChangeGeometry := true }).mSelectedGeometry = none) ∨
        (update none { sampleState with mChangeGeometry := true }).mRemoveGeometry = true)) := by
  decide

/-- C1 amended: when a rebuild is requested, no teardown is requested, and
the graph does not resolve at the tick, the tick leaves the state
unchanged except that both dirty flags end cleared: the teardown request
raised inside createGeometry is wiped by the end-of-tick flag clear, so
the drawables are not removed and no teardown stays pending — the rebuild
request is dropped. -/
theorem update_absent_graph_drops_rebuild (s : PathgridState)
    (h1 : s.mRemoveGeometry = false) (h2 : s.mChangeGeometry = true) :
    update none s = { s with mChangeGeometry := false, mRemoveGeometry := false } := by
  simp [update, createGeometry, removeGeometry, h1, h2]

/-- C1 witness: the amended behaviour evaluated on a concrete state with a
rebuild requested and both drawable slots filled. -/
theorem update_absent_graph_drops_rebuild_witness :
    ({ sampleState with mChangeGeometry := true } : PathgridState).mRemoveGeometry = false ∧
    ({ sampleState with mChangeGeometry := true } : PathgridState).mChangeGeometry = true ∧
    update none { sampleState with mChangeGeometry := true } =
      { sampleState with mChangeGeometry := false, mRemoveGeometry := false } := by
  refine ⟨rfl, rfl, ?_⟩
  have h := update_absent_graph_drops_rebuild { sampleState with mChangeGeometry := true } rfl rfl
  exact h.trans (by decide)

/-- C2 counterexample: toggleSelected on a resolvable graph falsifies both
halves of the claim at a concrete input — it does not set the rebuild
dirty flag, and it does change the highlight drawable within the call
itself instead of leaving it for the next tick. -/
theorem selection_ops_eager_counterexample :
    ¬ ((toggleSelected (some sampleGrid) 0 sampleState).mChangeGeometry = true ∧
        (toggleSelected (some sampleGrid) 0 sampleState).mSelectedGeometry =
          sampleState.mSelectedGeometry) := by
  decide

/-- C2 amended: no selection-state operation (selectAll, toggleSelected,
invertSelected, clearSelected, setupConnectionIndicator, resetMove)
touches either geometry dirty flag; each one instead applies its
highlight-geometry effect eagerly within the operation itself — rebuilding
the highlight drawable immediately when the graph resolves, and removing
it on clearSelected. -/
theorem selection_ops_eager (source : Option CSMPathgrid) (src : CSMPathgrid)
    (node : Nat) (s : PathgridState) :
    ((selectAll source s).mChangeGeometry = s.mChangeGeometry ∧
      (selectAll source s).mRemoveGeometry = s.mRemoveGeometry) ∧
    ((toggleSelected source node s).mChangeGeometry = s.mChangeGeometry ∧
      (toggleSelected source node s).mRemoveGeometry = s.mRemoveGeometry) ∧
    ((invertSelected source s).mChangeGeometry = s.mChangeGeometry ∧
      (invertSelected source s).mRemoveGeometry = s.mRemoveGeometry) ∧
    ((clearSelected s).mChangeGeometry = s.mChangeGeometry ∧
      (clearSelected s).mRemoveGeometry = s.mRemoveGeometry) ∧
    ((setupConnectionIndicator source node s).mChangeGeometry = s.mChangeGeometry ∧
      (setupConnectionIndicator source node s).mRemoveGeometry = s.mRemoveGeometry) ∧
    ((resetMove source s).mChangeGeometry = s.mChangeGeometry ∧
      (resetMove source s).mRemoveGeometry = s.mRemoveGeometry) ∧
    (toggleSelected (some src) node s).mSelectedGeometry ≠ none ∧
    (clearSelected s).mSelectedGeometry = none := by
  refine ⟨⟨?_, ?_⟩, ⟨?_, ?_⟩, ⟨?_, ?_⟩, ⟨?_, ?_⟩, ⟨?_, ?_⟩, ⟨?_, ?_⟩, ?_, ?_⟩
  · cases source <;>
      simp [selectAll, removeSelectedGeometry, createSelectedGeometrySrc_mChangeGeometry]
  · cases source <;>
      simp [selectAll, removeSelectedGeometry, createSelectedGeometrySrc_mRemoveGeometry]
  · simp [toggleSelected, createSelectedGeometry_mChangeGeometry]
    split <;> rfl
  · simp [toggleSelected, createSelectedGeometry_mRemoveGeometry]
    split <;> rfl
  · cases source <;>
      simp [invertSelected, removeSelectedGeometry, createSelectedGeometrySrc_mChangeGeometry]
  · cases source <;>
      simp [invertSelected, removeSelectedGeometry, createSelectedGeometrySrc_mRemoveGeometry]
  · simp [clearSelected, removeSelectedGeometry]
  · simp [clearSelected, removeSelectedGeometry]
  · simp [setupConnectionIndicator, createSelectedGeometry_mChangeGeometry]
  · simp [setupConnectionIndicator, createSelectedGeometry_mRemoveGeometry]
  · simp only [resetMove]
    split
    · simp [createSelectedGeometry_mChangeGeometry]
    · rfl
  · simp only [resetMove]
    split
    · simp [createSelectedGeometry_mRemoveGeometry]
    · rfl
  · simp [toggleSelected, createSelectedGeometry, createSelectedGeometrySrc_ne_none]
  · simp [clearSelected, removeSelectedGeometry]

/-- C4 counterexample: toggling a node while the graph does not resolve
leaves the toggled node in the selection instead of clearing it. -/
theorem toggle_absent_graph_counterexample :
    (toggleSelected none 3 sampleState).mSelected ≠ [] := by decide

/-- C4 amended: when the graph does not resolve, selectAll, invertSelected
and clearSelected do leave the selection empty and remove the highlight
drawable, but toggleSelected, setupConnectionIndicator and resetMove only
remove the highlight drawable: toggleSelected still records the toggle,
so the selection can be non-empty after the operation completes. -/
theorem absent_graph_selection_ops (node : Nat) (s : PathgridState) :
    (selectAll none s).mSelected = [] ∧
    (selectAll none s).mSelectedGeometry = none ∧
    (invertSelected none s).mSelected = [] ∧
    (invertSelected none s).mSelectedGeometry = none ∧
    (clearSelected s).mSelected = [] ∧
    (clearSelected s).mSelectedGeometry = none ∧
    (toggleSelected none node s).mSelectedGeometry = none ∧
    (toggleSelected none node { s with mSelected := [] }).mSelected = [node] ∧
    (setupConnectionIndicator none node s).mSelectedGeometry = none ∧
    (resetMove none { s with mConnectionIndicator := true }).mSelectedGeometry = none := by
  refine ⟨rfl, rfl, rfl, rfl, rfl, rfl, ?_, ?_, rfl, ?_⟩
  · simp [toggleSelected, createSelectedGeometry, removeSelectedGeometry]
  · simp [toggleSelected_mSelected]
  · simp [resetMove, createSelectedGeometry, removeSelectedGeometry]

/-- C3 counterexample: with selection [5, 7], toggling node 5 twice gives
[7, 5] — the contents return but not the exact prior order. -/
theorem toggle_twice_counterexample :
    (toggleSelected none 5 (toggleSelected none 5
        { sampleState with mSelected := [5, 7] })).mSelected
      ≠ ({ sampleState with mSelected := [5, 7] } : PathgridState).mSelected := by decide

/-- C3 amended: toggling the same node twice returns a selection with
exactly the prior contents (a permutation), for any selection in which the
node occurs at most once; the exact prior order is restored when the node
was not previously selected — when it was, the stable erase followed by
the append moves it to the end of the list. -/
theorem toggle_twice_perm (source : Option CSMPathgrid) (node : Nat) (s : PathgridState)
    (h : s.mSelected.count node ≤ 1) :
    ((toggleSelected source node (toggleSelected source node s)).mSelected).Perm
      s.mSelected ∧
    (node ∉ s.mSelected →
      (toggleSelected source node (toggleSelected source node s)).mSelected =
        s.mSelected) := by
  by_cases hm : node ∈ s.mSelected
  · have hc1 : s.mSelected.count node = 1 := by
      have := List.count_pos_iff.mpr hm
      omega
    have h0 : node ∉ s.mSelected.erase node := by
      rw [← List.count_eq_zero, List.count_erase_self, hc1]
    have t1 : (toggleSelected source node s).mSelected = s.mSelected.erase node := by
      rw [toggleSelected_mSelected, if_pos hm]
    constructor
    · rw [toggleSelected_mSelected, t1, if_neg h0]
      exact (List.perm_append_singleton _ _).trans (List.perm_cons_erase hm).symm
    · intro hn
      exact absurd hm hn
  · have t1 : (toggleSelected source node s).mSelected = s.mSelected ++ [node] := by
      rw [toggleSelected_mSelected, if_neg hm]
    have hmem : node ∈ s.mSelected ++ [node] := by simp
    have heq : (toggleSelected source node (toggleSelected source node s)).mSelected =
        s.mSelected := by
      rw [toggleSelected_mSelected, t1, if_pos hmem, List.erase_append_right _ hm,
        List.erase_cons_head, List.append_nil]
    exact ⟨heq ▸ List.Perm.refl _, fun _ => heq⟩

/-- C3 witness: the amended behaviour evaluated at a node not in the
selection [5, 7], where toggling twice restores the list exactly. -/
theorem toggle_twice_perm_witness :
    ({ sampleState with mSelected := [5, 7] } : PathgridState).mSelected.count 9 ≤ 1 ∧
    (((toggleSelected none 9 (toggleSelected none 9
          { sampleState with mSelected := [5, 7] })).mSelected).Perm
        ({ sampleState with mSelected := [5, 7] } : PathgridState).mSelected ∧
      (9 ∉ ({ sampleState with mSelected := [5, 7] } : PathgridState).mSelected →
        (toggleSelected none 9 (toggleSelected none 9
            { sampleState with mSelected := [5, 7] })).mSelected =
          ({ sampleState with mSelected := [5, 7] } : PathgridState).mSelected)) :=
  ⟨by decide, toggle_twice_perm none 9 { sampleState with mSelected := [5, 7] } (by decide)⟩

/-- C6: with a resolvable graph and a duplicate-free selection,
applyRemoveNodes emits exactly one delete-row command per selected index
(the emitted rows are a permutation of the selection), the emitted rows
are in strictly descending order, every command is a delete-row targeting
the points column, and the selection is cleared afterwards; with an absent
graph it emits zero commands and still clears the selection. -/
theorem applyRemoveNodes_spec (source : CSMPathgrid) (s : PathgridState)
    (h : s.mSelected.Nodup) :
    ((applyRemoveNodes (some source) s).1.map commandRow).Perm
      (s.mSelected.map Int.ofNat) ∧
    List.Sorted (fun a b : Int => b < a)
      ((applyRemoveNodes (some source) s).1.map commandRow) ∧
    (∀ c ∈ (applyRemoveNodes (some source) s).1,
      ∃ r, c = Command.deleteNested r ColumnId.pathgridPoints) ∧
    (applyRemoveNodes (some source) s).2.mSelected = [] ∧
    (applyRemoveNodes none s).1 = [] ∧
    (applyRemoveNodes none s).2.mSelected = [] := by
  have hrows : (applyRemoveNodes (some source) s).1.map commandRow =
      (List.insertionSort (fun a b => a ≥ b) s.mSelected).map Int.ofNat := by
    show ((List.insertionSort (fun a b => a ≥ b) s.mSelected).map
        (fun row => Command.deleteNested (Int.ofNat row) ColumnId.pathgridPoints)).map
          commandRow =
      (List.insertionSort (fun a b => a ≥ b) s.mSelected).map Int.ofNat
    rw [List.map_map]
    rfl
  have hperm := List.perm_insertionSort (fun a b => a ≥ b) s.mSelected
  have hnd : (List.insertionSort (fun a b => a ≥ b) s.mSelected).Nodup := hperm.symm.nodup h
  have hsorted : List.Sorted (fun a b : Nat => a ≥ b)
      (List.insertionSort (fun a b => a ≥ b) s.mSelected) :=
    List.sorted_insertionSort _ _
  have hstrict : List.Sorted (fun a b : Nat => b < a)
      (List.insertionSort (fun a b => a ≥ b) s.mSelected) :=
    (hsorted.and hnd).imp (fun hab => lt_of_le_of_ne hab.1 (Ne.symm hab.2))
  refine ⟨?_, ?_, ?_, ?_, rfl, rfl⟩
  · rw [hrows]
    exact hperm.map _
  · rw [hrows]
    exact List.Pairwise.map _ (fun a b hab => Int.ofNat_lt.mpr hab) hstrict
  · intro c hc
    simp only [applyRemoveNodes, List.mem_map] at hc
    obtain ⟨r, hr, rfl⟩ := hc
    exact ⟨(r : Int), rfl⟩
  · simp [applyRemoveNodes, clearSelected, removeSelectedGeometry]

/-- C6 witness: the removal behaviour evaluated on the selection
[0, 2, 1], which is duplicate-free. -/
theorem applyRemoveNodes_spec_witness :
    ({ sampleState with mSelected := [0, 2, 1] } : PathgridState).mSelected.Nodup ∧
    (((applyRemoveNodes (some sampleGrid)
            { sampleState with mSelected := [0, 2, 1] }).1.map commandRow).Perm
        (({ sampleState with mSelected := [0, 2, 1] } : PathgridState).mSelected.map
          Int.ofNat) ∧
      List.Sorted (fun a b : Int => b < a)
        ((applyRemoveNodes (some sampleGrid)
            { sampleState with mSelected := [0, 2, 1] }).1.map commandRow) ∧
      (∀ c ∈ (applyRemoveNodes (some sampleGrid)
          { sampleState with mSelected := [0, 2, 1] }).1,
        ∃ r, c = Command.deleteNested r ColumnId.pathgridPoints) ∧
      (applyRemoveNodes (some sampleGrid)
          { sampleState with mSelected := [0, 2, 1] }).2.mSelected = [] ∧
      (applyRemoveNodes none { sampleState with mSelected := [0, 2, 1] }).1 = [] ∧
      (applyRemoveNodes none
          { sampleState with mSelected := [0, 2, 1] }).2.mSelected = []) :=
  ⟨by decide,
    applyRemoveNodes_spec sampleGrid { sampleState with mSelected := [0, 2, 1] } (by decide)⟩

/-- C7 counterexample: with selection [1, 0] over a two-point graph,
inverting twice yields [0, 1]: the contents return but the order is
normalised to ascending rather than restored. -/
theorem invert_twice_counterexample :
    (invertSelected (some sampleGrid2) (invertSelected (some sampleGrid2)
        { sampleState with mSelected := [1, 0] })).mSelected
      ≠ ({ sampleState with mSelected := [1, 0] } : PathgridState).mSelected := by decide

/-- Inverting a strictly ascending, in-range list twice against the same
index range gives the list back. -/
theorem filter_range_invert_invert (N : Nat) (l : List Nat)
    (hsort : List.Sorted (fun a b : Nat => a < b) l)
    (hlt : ∀ x ∈ l, x < N) :
    (List.range N).filter
      (fun i => decide (i ∉ (List.range N).filter (fun j => decide (j ∉ l)))) = l := by
  have hmem : ∀ i : Nat,
      i ∈ (List.range N).filter
          (fun i => decide (i ∉ (List.range N).filter (fun j => decide (j ∉ l)))) ↔
        i ∈ l := by
    intro i
    simp only [List.mem_filter, List.mem_range, decide_eq_true_eq]
    constructor
    · rintro ⟨hiN, hnot⟩
      by_contra hno
      exact hnot ⟨hiN, hno⟩
    · intro hi
      exact ⟨hlt i hi, fun hand => hand.2 hi⟩
  have hsortA : List.Sorted (fun a b : Nat => a < b)
      ((List.range N).filter
        (fun i => decide (i ∉ (List.range N).filter (fun j => decide (j ∉ l))))) :=
    List.Pairwise.filter _ (List.sorted_lt_range N)
  have hp := (List.perm_ext_iff_of_nodup hsortA.nodup hsort.nodup).mpr hmem
  exact List.eq_of_perm_of_sorted hp hsortA hsort

/-- C7 amended: inverting twice over an unchanged graph returns the
original selection provided the original is strictly ascending and within
the graph's point range; an inversion always produces an ascending list,
so an unsorted original comes back with the same contents in ascending
order instead. -/
theorem invert_twice_sorted (source : CSMPathgrid) (s : PathgridState)
    (hsort : List.Sorted (fun a b : Nat => a < b) s.mSelected)
    (hlt : ∀ x ∈ s.mSelected, x < source.mPoints.length % 65536) :
    (invertSelected (some source) (invertSelected (some source) s)).mSelected =
      s.mSelected := by
  rw [invertSelected_mSelected]
  simp only [invertSelected_mSelected]
  exact filter_range_invert_invert _ _ hsort hlt

/-- C7 witness: the amended behaviour evaluated on the ascending in-range
selection [0] over the two-point graph. -/
theorem invert_twice_sorted_witness :
    List.Sorted (fun a b : Nat => a < b)
      ({ sampleState with mSelected := [0] } : PathgridState).mSelected ∧
    (∀ x ∈ ({ sampleState with mSelected := [0] } : PathgridState).mSelected,
      x < sampleGrid2.mPoints.length % 65536) ∧
    (invertSelected (some sampleGrid2) (invertSelected (some sampleGrid2)
        { sampleState with mSelected := [0] })).mSelected =
      ({ sampleState with mSelected := [0] } : PathgridState).mSelected :=
  ⟨by decide, by decide,
    invert_twice_sorted sampleGrid2 { sampleState with mSelected := [0] }
      (by decide) (by decide)⟩

end Pathgrid

end CSVRender
